import Mathlib

/-
Verification of the DoQ gateway (mosajjal/doqd): a shallow embedding of the
server stream handler (pkg/server/main.go, handleDoQSession), the upstream
forwarder (sendUDPDNSMsg) and the client constructor (pkg/client, New),
with theorems about the lifecycle and error-handling behavior.
-/

namespace Doqd

/-- EDNS(0) option code of the TCP keepalive option, the constant
dns.EDNS0TCPKEEPALIVE of the miekg dns library. -/
def EDNS0TCPKEEPALIVE : Nat := 11

/-- Shallow model of a parsed DNS message (dns.Msg) keeping only the fields the
gateway inspects or rewrites: the 16-bit transaction id, whether the message
carries an EDNS(0) OPT pseudo-record (msg.IsEdns0() returning non-nil), the
option codes inside that record, and an opaque index standing for all remaining
content (question, answer, authority and additional sections). -/
structure DnsMsg where
  id : Nat
  hasEdns0 : Bool
  ednsOptions : List Nat
  body : Nat
deriving Repr, DecidableEq

/-- The zero value dns.Msg, which sendUDPDNSMsg returns on every error path. -/
def zeroMsg : DnsMsg := { id := 0, hasEdns0 := false, ednsOptions := [], body := 0 }

/-- The keepalive scan of handleDoQSession: msg.IsEdns0() followed by the loop
over opt.Option testing each option code against dns.EDNS0TCPKEEPALIVE. -/
def hasTcpKeepaliveOption (m : DnsMsg) : Bool :=
  m.hasEdns0 && m.ednsOptions.any (fun c => c == EDNS0TCPKEEPALIVE)

/-- Diagnostic log lines the stream handler can emit when Debug is set, one
constructor per log.Printf site of the per-stream goroutine. -/
inductive LogEvent where
  | streamReadErr : String → LogEvent
  | querySmall : LogEvent
  | unpackFail : String → LogEvent
  | queryFail : String → LogEvent
  | packFail : String → LogEvent
  | writeFail : String → LogEvent
  | writeLenMismatch : LogEvent
deriving Repr, DecidableEq

/-- Environment of one stream handler run: the values its external
collaborators hand back. bytes and readErr are the result of
io.ReadAll(stream); unpacked is the state of msg after msg.Unpack(bytes)
returned (holding whatever partial header fields were recovered when unpackErr
is set); forward is the behavior of sendUDPDNSMsg for this query; pack is
resp.Pack(); write is stream.Write, returning the count written and an
optional error. -/
structure StreamEnv where
  bytes : List Nat
  readErr : Option String
  unpacked : DnsMsg
  unpackErr : Option String
  forward : DnsMsg → DnsMsg × Option String
  pack : DnsMsg → Except String (List Nat)
  write : List Nat → Nat × Option String

/-- Observable effects of one run of the per-stream goroutine body:
increments of the three counters, the message handed to the upstream forwarder
(none when the forward step never ran), the response message handed to Pack,
the byte strings passed to stream.Write in order, the number of stream.Close
calls, and the diagnostic log lines. -/
structure Trace where
  queriesInc : Nat
  validInc : Nat
  upstreamErrInc : Nat
  forwarded : Option DnsMsg
  packedResp : Option DnsMsg
  writes : List (List Nat)
  closes : Nat
  logs : List LogEvent
deriving Repr, DecidableEq

/-- The per-stream goroutine body of handleDoQSession, translated line by
line: metricQueries.Inc() first; io.ReadAll with its error ignored except for
logging; the minimum-size check (len(bytes) < 17) abandoning the stream;
msg.Unpack with a failure only logged, processing continuing on the partial
message; the EDNS TCP keepalive check closing the stream and returning;
saving the id and zeroing msg.Id (the deferred restore assigns the local msg
and the reply pointer, which is declared but never assigned, and runs only
after the write, so it has no observable effect on the trace);
sendUDPDNSMsg with a failure logged and counted but not aborting;
metricValidQueries.Inc(); resp.Pack() with a failure only logged (bytes
becoming empty); exactly one stream.Write of the packed bytes with a short
write only logged; exactly one stream.Close. -/
def handleStream (debug : Bool) (env : StreamEnv) : Trace :=
  if env.bytes.length < 17 then
    { queriesInc := 1, validInc := 0, upstreamErrInc := 0, forwarded := none,
      packedResp := none, writes := [], closes := 0,
      logs :=
        if debug then
          match env.readErr with
          | some e => [LogEvent.streamReadErr e]
          | none => [LogEvent.querySmall]
        else [] }
  else
    let msg := env.unpacked
    let logsU : List LogEvent :=
      match env.unpackErr with
      | some e => if debug then [LogEvent.unpackFail e] else []
      | none => []
    if hasTcpKeepaliveOption msg then
      { queriesInc := 1, validInc := 0, upstreamErrInc := 0, forwarded := none,
        packedResp := none, writes := [], closes := 1, logs := logsU }
    else
      let msgZero : DnsMsg := { msg with id := 0 }
      let fwd := env.forward msgZero
      let resp := fwd.1
      let uerr : Nat := match fwd.2 with | some _ => 1 | none => 0
      let logsQ : List LogEvent :=
        logsU ++ (match fwd.2 with
                  | some e => if debug then [LogEvent.queryFail e] else []
                  | none => [])
      let packed : List Nat × List LogEvent :=
        match env.pack resp with
        | Except.ok bs => (bs, logsQ)
        | Except.error e =>
            ([], logsQ ++ (if debug then [LogEvent.packFail e] else []))
      let w := env.write packed.1
      let logsW : List LogEvent :=
        packed.2 ++
          (match w.2 with
           | some e => if debug then [LogEvent.writeFail e] else []
           | none => []) ++
          (if w.1 != packed.1.length then
             (if debug then [LogEvent.writeLenMismatch] else [])
           else [])
      { queriesInc := 1, validInc := 1, upstreamErrInc := uerr,
        forwarded := some msgZero, packedResp := some resp,
        writes := [packed.1], closes := 1, logs := logsW }

/-- The fields of a trace other than the diagnostic logs, used to state that
a value influences only logging. -/
def traceObs (t : Trace) :
    Nat × Nat × Nat × Option DnsMsg × Option DnsMsg × List (List Nat) × Nat :=
  (t.queriesInc, t.validInc, t.upstreamErrInc, t.forwarded, t.packedResp,
   t.writes, t.closes)

/-- Modelled from the spec: the internal error close code from the shared doqd
protocol constants (the root package file defining TlsProtos, TlsProtosCompat
and InternalError is not under src). The spec only names it as the
internal-error code used to force-close a session; its numeric value is
irrelevant to the claims, only its identity across close calls matters. -/
def InternalError : Nat := 1

/-- One result of session.AcceptStream inside the accept loop of
handleDoQSession: either a new client stream (with the environment its handler
will run against) or an accept error. -/
inductive AcceptResult where
  | stream (env : StreamEnv)
  | fail (e : String)

/-- Observable effects of the accept loop of handleDoQSession on one session:
how many stream handler goroutines were spawned, the close codes passed to
session.CloseWithError in order, and whether the loop returned. -/
structure SessionTrace where
  spawned : Nat
  closeCalls : List Nat
  returned : Bool
deriving Repr, DecidableEq

/-- The accept loop of handleDoQSession over a finite prefix of AcceptStream
results: on success it spawns a stream handler goroutine and immediately loops;
on failure it closes the connection with the InternalError code and returns.
An exhausted prefix models a loop still blocked inside AcceptStream, so it has
neither closed the connection nor returned. -/
def handleDoQSession : List AcceptResult → SessionTrace
  | [] => { spawned := 0, closeCalls := [], returned := false }
  | AcceptResult.fail _ :: _ =>
      { spawned := 0, closeCalls := [InternalError], returned := true }
  | AcceptResult.stream _ :: rest =>
      let t := handleDoQSession rest
      { t with spawned := t.spawned + 1 }

/-- Environment of one sendUDPDNSMsg call: the results its collaborators hand
back. pack is msg.Pack(); dial is the error of net.Dial (none on success);
write is conn.Write(packed), returning the count and an optional error (the
source discards the count); read is conn.Read into the 4096-byte buffer,
giving buf up to size or an error; unpack is retMsg.Unpack(buf). -/
structure UdpEnv where
  pack : DnsMsg → Except String (List Nat)
  dial : Option String
  write : List Nat → Nat × Option String
  read : Except String (List Nat)
  unpack : List Nat → Except String DnsMsg

/-- Observable effects of one sendUDPDNSMsg call: the returned pair (message,
optional error) and the byte strings written to the UDP connection in order. -/
structure UdpTrace where
  result : DnsMsg × Option String
  writes : List (List Nat)
deriving Repr, DecidableEq

/-- sendUDPDNSMsg translated line by line: pack the message, returning the
zero dns.Msg with the error on failure; dial the upstream, returning the zero
message with a wrapped error on failure; write the packed query once, checking
only the error and discarding the count; read one buffer, returning the zero
message with a wrapped error on failure; unpack the response, returning the
zero message with the error on failure; otherwise return the response with a
nil error. -/
def sendUDPDNSMsg (msg : DnsMsg) (env : UdpEnv) : UdpTrace :=
  match env.pack msg with
  | Except.error e => { result := (zeroMsg, some e), writes := [] }
  | Except.ok packed =>
    match env.dial with
    | some e =>
        { result := (zeroMsg, some ("upstream connect: " ++ e)), writes := [] }
    | none =>
      match (env.write packed).2 with
      | some e =>
          { result := (zeroMsg, some ("upstream query write: " ++ e)),
            writes := [packed] }
      | none =>
        match env.read with
        | Except.error e =>
            { result := (zeroMsg, some ("upstream query read: " ++ e)),
              writes := [packed] }
        | Except.ok buf =>
          match env.unpack buf with
          | Except.error e => { result := (zeroMsg, some e), writes := [packed] }
          | Except.ok retMsg => { result := (retMsg, none), writes := [packed] }

/-- Outcome of the client constructor New of the pkg client package: either it
returns the constructed client together with a nil error, or log.Fatalf runs
and the whole process exits. -/
inductive NewResult where
  | ok
  | fatalExit
deriving Repr, DecidableEq

/-- New of the pkg client package, given the outcome of quic.DialAddr: on a
dial failure the source calls log.Fatalf, which terminates the whole process;
on success it returns the client with a nil error. The error return of its
signature is never used. -/
def clientNew (dialErr : Option String) : NewResult :=
  match dialErr with
  | some _ => NewResult.fatalExit
  | none => NewResult.ok

/-- A concrete stream environment: a well-formed 17-byte query with client
transaction id 1234, a compliant upstream that echoes the transaction id of
the query it receives, a packer exposing the id in the wire bytes, and a
stream whose write succeeds completely. -/
def envBase : StreamEnv :=
  { bytes := List.replicate 17 0,
    readErr := none,
    unpacked := { id := 1234, hasEdns0 := false, ednsOptions := [], body := 3 },
    unpackErr := none,
    forward := fun q =>
      ({ id := q.id, hasEdns0 := false, ednsOptions := [], body := 7 }, none),
    pack := fun m => Except.ok [m.id / 256, m.id % 256],
    write := fun bs => (bs.length, none) }

/-- C1: the handler does not restore the client id onto the written response.
With client id 1234 and a compliant upstream that echoes the id of the query
it receives, the query is forwarded with id zero and the response handed to
Pack and written back carries id 0, not 1234: the deferred restore runs only
after the write and assigns the local msg and the never-assigned reply
pointer, so the claimed property R.id equal to Q.id fails. -/
theorem c1_response_id_not_restored :
    (handleStream false envBase).forwarded =
      some { envBase.unpacked with id := 0 } ∧
    Option.map DnsMsg.id (handleStream false envBase).packedResp = some 0 ∧
    envBase.unpacked.id = 1234 := by decide

/-- A concrete environment whose bytes fail to decode: Unpack returns an
error, the partial message carries no EDNS record, and the stream read
delivered 17 bytes. -/
def envC2 : StreamEnv :=
  { envBase with
    unpacked := { id := 9, hasEdns0 := false, ednsOptions := [], body := 2 },
    unpackErr := some "dns: overflowing header size" }

/-- C2 counterexample: a stream whose bytes fail to decode is nevertheless
forwarded upstream; the handler invokes the Upstream Forwarder with the
partially decoded message, contradicting the claim that it is never
forwarded. -/
theorem c2_decode_failure_forwarded_cex :
    envC2.unpackErr.isSome = true ∧
    (handleStream false envC2).forwarded =
      some { id := 0, hasEdns0 := false, ednsOptions := [], body := 2 } := by
  decide

/-- C2 amended: for every stream that passes the minimum-size check and whose
bytes fail to decode, the handler still invokes the Upstream Forwarder with
the partially decoded message (its id zeroed), provided the partial message
does not carry the EDNS TCP keepalive option. -/
theorem c2_decode_failure_still_forwarded (debug : Bool) (env : StreamEnv)
    (hun : env.unpackErr.isSome = true)
    (hlen : 17 ≤ env.bytes.length)
    (hka : hasTcpKeepaliveOption env.unpacked = false) :
    (handleStream debug env).forwarded = some { env.unpacked with id := 0 } := by
  unfold handleStream
  rw [if_neg (Nat.not_lt.mpr hlen)]
  simp [hka]

/-- C2 witness: the amended statement holds at the concrete environment. -/
theorem c2_witness :
    (handleStream false envC2).forwarded =
      some { envC2.unpacked with id := 0 } :=
  c2_decode_failure_still_forwarded false envC2 (by decide) (by decide)
    (by decide)

/-- A concrete environment delivering only 3 bytes before half-close. -/
def envC3 : StreamEnv := { envBase with bytes := [0, 1, 2] }

/-- C3 counterexample: the query counter is incremented even for a stream
that delivers fewer than 17 bytes, contradicting the claim that such a stream
does not increment it: metricQueries.Inc() runs before the size check. -/
theorem c3_counter_incremented_below_min_cex :
    envC3.bytes.length < 17 ∧ (handleStream false envC3).queriesInc = 1 := by
  decide

/-- C3 amended: the query counter is incremented exactly once per accepted
stream, whether or not the stream passes the minimum-size check. -/
theorem c3_counter_once_per_stream (debug : Bool) (env : StreamEnv) :
    (handleStream debug env).queriesInc = 1 := by
  unfold handleStream
  split
  · rfl
  · dsimp only
    split
    · rfl
    · rfl

/-- C4: a forwarding failure does not abort the exchange. For every stream
that passes the minimum-size and EDNS keepalive checks, when the forwarder
returns an error the handler still hands the value the forwarder returned to
Pack and performs exactly one write attempt and one stream close. -/
theorem c4_forward_failure_still_writes (debug : Bool) (env : StreamEnv)
    (hlen : 17 ≤ env.bytes.length)
    (hka : hasTcpKeepaliveOption env.unpacked = false)
    (hfail : (env.forward { env.unpacked with id := 0 }).2.isSome = true) :
    (handleStream debug env).packedResp =
      some (env.forward { env.unpacked with id := 0 }).1 ∧
    (handleStream debug env).writes.length = 1 ∧
    (handleStream debug env).closes = 1 := by
  unfold handleStream
  rw [if_neg (Nat.not_lt.mpr hlen)]
  simp [hka]

/-- A concrete environment whose upstream forward fails totally, returning
the zero message with an error. -/
def envC4 : StreamEnv :=
  { envBase with forward := fun _ => (zeroMsg, some "upstream connect: refused") }

/-- C4 witness: the statement holds at a concrete environment whose forward
step fails. -/
theorem c4_witness :
    (handleStream true envC4).packedResp =
      some (envC4.forward { envC4.unpacked with id := 0 }).1 ∧
    (handleStream true envC4).writes.length = 1 ∧
    (handleStream true envC4).closes = 1 :=
  c4_forward_failure_still_writes true envC4 (by decide) (by decide) (by decide)

/-- C5: a parsed message carrying the EDNS TCP keepalive option makes the
handler close the stream with nothing written back, no forward to the
upstream, no response packed and no valid-query or upstream-error counter
increment. -/
theorem c5_keepalive_closes_stream (debug : Bool) (env : StreamEnv)
    (hlen : 17 ≤ env.bytes.length)
    (hka : hasTcpKeepaliveOption env.unpacked = true) :
    (handleStream debug env).forwarded = none ∧
    (handleStream debug env).packedResp = none ∧
    (handleStream debug env).writes = [] ∧
    (handleStream debug env).closes = 1 ∧
    (handleStream debug env).validInc = 0 ∧
    (handleStream debug env).upstreamErrInc = 0 := by
  unfold handleStream
  rw [if_neg (Nat.not_lt.mpr hlen)]
  simp [hka]

/-- A concrete environment whose parsed message carries an EDNS(0) record
holding the TCP keepalive option code 11 among its options. -/
def envC5 : StreamEnv :=
  { envBase with
    unpacked := { id := 7, hasEdns0 := true, ednsOptions := [10, 11], body := 1 } }

/-- C5 witness: the statement holds at a concrete keepalive-carrying
environment. -/
theorem c5_witness :
    (handleStream false envC5).forwarded = none ∧
    (handleStream false envC5).packedResp = none ∧
    (handleStream false envC5).writes = [] ∧
    (handleStream false envC5).closes = 1 ∧
    (handleStream false envC5).validInc = 0 ∧
    (handleStream false envC5).upstreamErrInc = 0 :=
  c5_keepalive_closes_stream false envC5 (by decide) (by decide)

/-- C6: a stream delivering fewer than 17 bytes before half-close is
abandoned: nothing is forwarded upstream, nothing is packed and no write is
attempted. -/
theorem c6_small_stream_abandoned (debug : Bool) (env : StreamEnv)
    (hlen : env.bytes.length < 17) :
    (handleStream debug env).forwarded = none ∧
    (handleStream debug env).packedResp = none ∧
    (handleStream debug env).writes = [] := by
  unfold handleStream
  rw [if_pos hlen]
  exact ⟨rfl, rfl, rfl⟩

/-- A concrete environment delivering 16 bytes, one short of the minimum. -/
def envC6 : StreamEnv := { envBase with bytes := List.replicate 16 0 }

/-- C6 witness: the statement holds at a concrete 16-byte environment. -/
theorem c6_witness :
    (handleStream false envC6).forwarded = none ∧
    (handleStream false envC6).packedResp = none ∧
    (handleStream false envC6).writes = [] :=
  c6_small_stream_abandoned false envC6 (by decide)

/-- C7: when the stream-accept call fails, the session handler makes exactly
one connection-close call with the internal-error code, its loop returns, and
no stream after the failure is accepted or processed: the trace of the loop
over any accept sequence containing a failure spawns exactly the handlers of
the streams before the first failure, regardless of what follows it. -/
theorem c7_accept_failure_closes_once (pre : List AcceptResult) (e : String)
    (post : List AcceptResult)
    (hpre : ∀ a ∈ pre, ∃ env, a = AcceptResult.stream env) :
    handleDoQSession (pre ++ AcceptResult.fail e :: post) =
      { spawned := pre.length, closeCalls := [InternalError], returned := true } := by
  induction pre with
  | nil => rfl
  | cons a rest ih =>
      obtain ⟨env, rfl⟩ := hpre a (List.mem_cons_self a rest)
      have hr := ih (fun b hb => hpre b (List.mem_cons_of_mem _ hb))
      simp [handleDoQSession, hr]

/-- C7 witness: one accepted stream, then an accept failure, then a further
stream arrival that is never processed. -/
theorem c7_witness :
    handleDoQSession
        [AcceptResult.stream envBase, AcceptResult.fail "peer closed",
         AcceptResult.stream envC5] =
      { spawned := 1, closeCalls := [InternalError], returned := true } :=
  c7_accept_failure_closes_once [AcceptResult.stream envBase] "peer closed"
    [AcceptResult.stream envC5]
    (fun a ha => ⟨envBase, by simpa using ha⟩)

/-- C8: sendUDPDNSMsg never writes more than once; when pack and dial succeed
it writes the packed query exactly once; and a failed write, or a partial
write under the io.Writer contract that a short count comes with a non-nil
error, makes it return an error together with the zero-value message. -/
theorem c8_write_once_and_fail_returns_zero (msg : DnsMsg) (env : UdpEnv)
    (packed : List Nat)
    (hpack : env.pack msg = Except.ok packed)
    (hdial : env.dial = none)
    (hio : (env.write packed).1 < packed.length →
      (env.write packed).2.isSome = true)
    (hfail : (env.write packed).2.isSome = true ∨
      (env.write packed).1 < packed.length) :
    (∀ m2 e2, (sendUDPDNSMsg m2 e2).writes.length ≤ 1) ∧
    (sendUDPDNSMsg msg env).writes = [packed] ∧
    ∃ er, (sendUDPDNSMsg msg env).result = (zeroMsg, some er) := by
  have hw : (env.write packed).2.isSome = true := by
    rcases hfail with h | h
    · exact h
    · exact hio h
  obtain ⟨e2, he2⟩ := Option.isSome_iff_exists.mp hw
  refine ⟨?_, ?_, ?_⟩
  · intro m2 env2
    unfold sendUDPDNSMsg
    repeat' split
    all_goals simp
  · simp only [sendUDPDNSMsg, hpack, hdial, he2]
  · simp only [sendUDPDNSMsg, hpack, hdial, he2]
    exact ⟨"upstream query write: " ++ e2, rfl⟩

/-- A concrete forwarder environment whose UDP write fails. -/
def envC8 : UdpEnv :=
  { pack := fun m => Except.ok [m.id, m.body],
    dial := none,
    write := fun _ => (0, some "broken pipe"),
    read := Except.ok [],
    unpack := fun _ => Except.ok zeroMsg }

/-- C8 witness: the statement holds at a concrete environment whose write
fails. -/
theorem c8_witness :
    (∀ m2 e2, (sendUDPDNSMsg m2 e2).writes.length ≤ 1) ∧
    (sendUDPDNSMsg zeroMsg envC8).writes = [[0, 0]] ∧
    ∃ er, (sendUDPDNSMsg zeroMsg envC8).result = (zeroMsg, some er) :=
  c8_write_once_and_fail_returns_zero zeroMsg envC8 [0, 0] rfl rfl
    (fun _ => rfl) (Or.inl rfl)

/-- C9: the client constructor does not return its error: on a dial failure
it calls log.Fatalf, which terminates the whole process, contradicting the
claim that no condition outside listener startup is fatal to the process and
that the client constructor returns errors instead of aborting. -/
theorem c9_client_new_exits_process :
    clientNew (some "connection refused") = NewResult.fatalExit := rfl

/-- C10: the error of reading the stream to end-of-input never decides
anything but a log line: every observable effect other than logging is the
same as on a successful read, and when at least 17 bytes arrived the whole
trace, logs included, is the same as on a successful read, so only the byte
count decides whether the stream is abandoned. -/
theorem c10_read_error_only_logged (debug : Bool) (env : StreamEnv)
    (e : Option String) :
    traceObs (handleStream debug { env with readErr := e }) =
      traceObs (handleStream debug { env with readErr := none }) ∧
    (17 ≤ env.bytes.length →
      handleStream debug { env with readErr := e } =
        handleStream debug { env with readErr := none }) := by
  have key : ∀ r : Option String, ¬ env.bytes.length < 17 →
      handleStream debug { env with readErr := r } =
        handleStream debug { env with readErr := none } := by
    intro r h
    unfold handleStream
    dsimp only
    rw [if_neg h, if_neg h]
  by_cases h : env.bytes.length < 17
  · constructor
    · unfold handleStream
      dsimp only
      rw [if_pos h, if_pos h]
      rfl
    · intro hlen
      exact absurd h (Nat.not_lt.mpr hlen)
  · have h2 := key e h
    exact ⟨congrArg traceObs h2, fun _ => h2⟩

/-- C10 witness: at the concrete base environment, a read error leaves the
run of the handler unchanged. -/
theorem c10_witness :
    handleStream true { envBase with readErr := some "stream reset" } =
      handleStream true { envBase with readErr := none } :=
  (c10_read_error_only_logged true envBase (some "stream reset")).2 (by decide)

end Doqd
